import Mathlib

/-!
Verification of the concurrent queue and worker pool of this repository.

`src/queue.rs` implements `SharedQueue<T>`: a `Mutex`-protected `State<T>`
(a `VecDeque<T>` plus a `shutdown : bool` flag) with a `Condvar`.  Every
operation acquires the lock, so each operation is an atomic transformation
of the protected state; we embed that state as a Lean structure and each
operation as a function on it.  `dequeue` is the only operation that can
block (the `condvar.wait` loop when the queue is empty and not shut down);
we embed its outcome as an `Option`: `none` means the call suspends on the
condition variable without changing the state, `some (r, s)` means the call
returns `r` leaving state `s`.  `enqueue` can panic (enqueue after
shutdown); we embed its outcome as an `Except String Unit` paired with the
state at the moment the call ends (normally or by panic) — the panic check
in the source precedes the `push_back`, so on the panic path the state is
returned unchanged.

`src/tcp_server.rs` implements `ThreadPool` / `Worker` over an `mpsc`
channel whose receiver is shared behind `Arc<Mutex<...>>`.  The worker
loop body and the constructor are embedded below, together with a
small-step interleaving semantics of workers claiming jobs from the
shared channel.
-/

namespace SharedQueue

/-- The lock-protected `State<T>` of `src/queue.rs`: the `VecDeque` is a
Lean list with its front at the head, `shutdown` is the closed flag. -/
structure State (T : Type) where
  queue : List T
  shutdown : Bool
  deriving Repr, DecidableEq

/-- `SharedQueue::new`: empty queue, `shutdown = false`. -/
def new (T : Type) : State T := { queue := [], shutdown := false }

/-- `SharedQueue::enqueue`: under the lock, panic if `shutdown` is set,
otherwise `push_back` the item (and `notify_one`, which does not change
the protected state).  The result is the call outcome (`ok` or the panic
message) together with the protected state when the call ends. -/
def enqueue {T : Type} (item : T) (s : State T) : Except String Unit × State T :=
  if s.shutdown then
    (Except.error "Cannot enqueue items after shutdown signal!", s)
  else
    (Except.ok (), { s with queue := s.queue ++ [item] })

/-- `SharedQueue::dequeue`: under the lock, loop — `pop_front` and return
it if present; otherwise return `None` if `shutdown` is set; otherwise
wait on the condition variable.  `none` here means the call suspends on
the condition variable (leaving the state untouched); `some (r, s)` means
the call returns `r` with state `s`. -/
def dequeue {T : Type} (s : State T) : Option (Option T × State T) :=
  match s.queue with
  | item :: rest => some (some item, { s with queue := rest })
  | [] => if s.shutdown then some (none, s) else none

/-- `SharedQueue::send_shutdown`: under the lock, set `shutdown = true`
(and `notify_all`, which does not change the protected state). -/
def send_shutdown {T : Type} (s : State T) : State T :=
  { s with shutdown := true }

/-- `SharedQueue::size`: under the lock, the queue's length. -/
def size {T : Type} (s : State T) : Nat :=
  s.queue.length

/-- Run a whole list of `enqueue` calls in order, collecting each call's
outcome and threading the state. -/
def enqueueAll {T : Type} : List T → State T → List (Except String Unit) × State T
  | [], s => ([], s)
  | x :: xs, s =>
      let r := enqueue x s
      let rs := enqueueAll xs r.2
      (r.1 :: rs.1, rs.2)

/-- Perform `n` successive `dequeue` calls, recording the returned values;
stop early if a call blocks. -/
def drainResults {T : Type} : Nat → State T → List (Option T)
  | 0, _ => []
  | n + 1, s =>
      match dequeue s with
      | some (r, s') => r :: drainResults n s'
      | none => []

/-- The four queue operations, used to quantify over arbitrary call
sequences. -/
inductive QOp (T : Type) where
  | enq (item : T)
  | deq
  | sendShutdown
  | getSize
  deriving Repr

/-- The protected state after one operation: an `enq` that panics leaves
the state as it was at the panic point, a `deq` that blocks has not (yet)
changed the state, `getSize` only reads. -/
def applyOp {T : Type} (s : State T) : QOp T → State T
  | QOp.enq item => (enqueue item s).2
  | QOp.deq =>
      match dequeue s with
      | some (_, s') => s'
      | none => s
  | QOp.sendShutdown => send_shutdown s
  | QOp.getSize => s

/-- The protected state after a sequence of operations. -/
def applyOps {T : Type} (ops : List (QOp T)) (s : State T) : State T :=
  ops.foldl applyOp s

end SharedQueue

namespace SharedQueue

theorem enqueueAll_open {T : Type} (xs : List T) (l : List T) :
    enqueueAll xs { queue := l, shutdown := false } =
      (xs.map fun _ => Except.ok (), { queue := l ++ xs, shutdown := false }) := by
  induction xs generalizing l with
  | nil => simp [enqueueAll]
  | cons x xs ih =>
      simp [enqueueAll, enqueue, ih (l ++ [x]), List.append_assoc]

theorem drainResults_closed {T : Type} (l : List T) :
    drainResults (l.length + 1) { queue := l, shutdown := true } =
      l.map some ++ [none] := by
  induction l with
  | nil => simp [drainResults, dequeue]
  | cons x xs ih =>
      have h1 : drainResults ((x :: xs).length + 1) { queue := x :: xs, shutdown := true } =
          some x :: drainResults (xs.length + 1) { queue := xs, shutdown := true } := rfl
      rw [h1, ih]
      simp

end SharedQueue

open SharedQueue

/-- Claim C1: `dequeue` returns `None` if and only if, at the check under
the lock, the queue is empty and the closed flag is set; whenever an item
is present it returns the front item wrapped in `Some`, regardless of the
closed flag. -/
theorem C1_dequeue_none_iff_empty_closed {T : Type} (s : State T) :
    ((∃ s', dequeue s = some (none, s')) ↔ s.queue = [] ∧ s.shutdown = true) ∧
    (∀ x rest, s.queue = x :: rest →
      dequeue s = some (some x, { queue := rest, shutdown := s.shutdown })) := by
  constructor
  · constructor
    · rintro ⟨s', h⟩
      match hq : s.queue with
      | [] =>
          refine ⟨rfl, ?_⟩
          by_contra hsd
          rw [Bool.not_eq_true] at hsd
          simp [dequeue, hq, hsd] at h
      | x :: rest => simp [dequeue, hq] at h
    · rintro ⟨hq, hsd⟩
      exact ⟨s, by simp [dequeue, hq, hsd]⟩
  · intro x rest hq
    simp [dequeue, hq]

/-- Witness for C1 at concrete states: a closed nonempty queue still
dequeues its front item, and an empty closed queue reports `None`. -/
theorem C1_dequeue_none_iff_empty_closed_witness :
    dequeue { queue := [5], shutdown := true } =
      some (some 5, ({ queue := [], shutdown := true } : State Nat)) ∧
    (∃ s', dequeue ({ queue := [], shutdown := true } : State Nat) = some (none, s')) :=
  ⟨(C1_dequeue_none_iff_empty_closed { queue := [5], shutdown := true }).2 5 [] rfl,
   (C1_dequeue_none_iff_empty_closed
      ({ queue := [], shutdown := true } : State Nat)).1.mpr ⟨rfl, rfl⟩⟩

/-- Claim C2: FIFO drain — starting from a fresh open queue, enqueueing
the items `xs` (each call succeeding), then signalling shutdown, the
successive `dequeue` calls return the items of `xs` in exact enqueue
order, and the next call after the drain returns `None`. -/
theorem C2_fifo_drain {T : Type} (xs : List T) :
    (enqueueAll xs (new T)).1 = xs.map (fun _ => Except.ok ()) ∧
    drainResults (xs.length + 1) (send_shutdown (enqueueAll xs (new T)).2) =
      xs.map some ++ [none] := by
  have h := enqueueAll_open xs ([] : List T)
  constructor
  · simpa [new] using congrArg Prod.fst h
  · have h2 : (enqueueAll xs (new T)).2 = { queue := xs, shutdown := false } := by
      simpa [new] using congrArg Prod.snd h
    rw [h2]
    simpa [send_shutdown] using drainResults_closed xs

/-- Claim C5: on a closed queue, `enqueue` aborts loudly — the call ends
in the panic with the source's message, never in a normal return. -/
theorem C5_enqueue_after_shutdown_panics {T : Type} (item : T) (s : State T)
    (h : s.shutdown = true) :
    (enqueue item s).1 = Except.error "Cannot enqueue items after shutdown signal!" := by
  simp [enqueue, h]

/-- Witness for C5: enqueueing 7 into a concrete closed queue panics. -/
theorem C5_enqueue_after_shutdown_panics_witness :
    (enqueue 7 { queue := [1], shutdown := true }).1 =
      Except.error "Cannot enqueue items after shutdown signal!" :=
  C5_enqueue_after_shutdown_panics 7 { queue := [1], shutdown := true } rfl

/-- Claim C7: `send_shutdown` is idempotent — calling it twice yields
exactly the same protected state (closed flag true, items untouched) as
calling it once. -/
theorem C7_send_shutdown_idempotent {T : Type} (s : State T) :
    send_shutdown (send_shutdown s) = send_shutdown s ∧
    (send_shutdown s).shutdown = true ∧
    (send_shutdown s).queue = s.queue := by
  simp [send_shutdown]

/-- Claim C8: the closed flag is monotonic — once `shutdown` is true, no
sequence of queue operations (`enqueue`, `dequeue`, `send_shutdown`,
`size`) ever resets it to false. -/
theorem C8_closed_flag_monotonic {T : Type} (s : State T) (h : s.shutdown = true)
    (ops : List (QOp T)) :
    (applyOps ops s).shutdown = true := by
  induction ops generalizing s with
  | nil => exact h
  | cons op ops ih =>
      refine ih (applyOp s op) ?_
      match op with
      | QOp.enq item => simp [applyOp, enqueue, h]
      | QOp.deq =>
          match hq : s.queue with
          | [] => simp [applyOp, dequeue, hq, h]
          | x :: rest => simp [applyOp, dequeue, hq, h]
      | QOp.sendShutdown => simp [applyOp, send_shutdown]
      | QOp.getSize => simpa [applyOp] using h

/-- Witness for C8: a concrete closed queue stays closed across an
enqueue attempt, a dequeue, a repeated shutdown and a size query. -/
theorem C8_closed_flag_monotonic_witness :
    (applyOps [QOp.enq 3, QOp.deq, QOp.sendShutdown, QOp.getSize]
      ({ queue := [9], shutdown := true } : State Nat)).shutdown = true :=
  C8_closed_flag_monotonic { queue := [9], shutdown := true } rfl
    [QOp.enq 3, QOp.deq, QOp.sendShutdown, QOp.getSize]

/-- Claim C9: enqueue-after-shutdown fails atomically — the panic fires
before the item is appended, so the call leaves the item sequence and the
closed flag exactly as they were (and returns no `ok`). -/
theorem C9_enqueue_after_shutdown_atomic {T : Type} (item : T) (s : State T)
    (h : s.shutdown = true) :
    enqueue item s = (Except.error "Cannot enqueue items after shutdown signal!", s) := by
  simp [enqueue, h]

/-- Witness for C9: a concrete closed queue is byte-for-byte unchanged by
the failing enqueue. -/
theorem C9_enqueue_after_shutdown_atomic_witness :
    enqueue 4 { queue := [1, 2], shutdown := true } =
      (Except.error "Cannot enqueue items after shutdown signal!",
        ({ queue := [1, 2], shutdown := true } : State Nat)) :=
  C9_enqueue_after_shutdown_atomic 4 { queue := [1, 2], shutdown := true } rfl

/-- Empty-and-closed is preserved by every queue operation: `enqueue`
panics without touching the state, `dequeue` returns `None` leaving the
state, `send_shutdown` and `size` keep both fields. -/
theorem applyOps_empty_closed {T : Type} (s : State T)
    (hq : s.queue = []) (hs : s.shutdown = true) (ops : List (QOp T)) :
    (applyOps ops s).queue = [] ∧ (applyOps ops s).shutdown = true := by
  induction ops generalizing s with
  | nil => exact ⟨hq, hs⟩
  | cons op ops ih =>
      refine ih (applyOp s op) ?_ ?_ <;>
        match op with
        | QOp.enq item => simp [applyOp, enqueue, hs, hq]
        | QOp.deq => simp [applyOp, dequeue, hq, hs]
        | QOp.sendShutdown => simp [applyOp, send_shutdown, hq]
        | QOp.getSize => simp [applyOp, hq, hs]

/-- Claim C10: the `None` result of `dequeue` is absorbing — once a
`dequeue` call has returned `None`, after any further sequence of queue
operations every subsequent `dequeue` again returns `None` (the queue
stays empty and closed: enqueue panics instead of adding, nothing reopens
the queue). -/
theorem C10_dequeue_none_absorbing {T : Type} (s s₀ : State T)
    (h : dequeue s = some (none, s₀)) (ops : List (QOp T)) :
    dequeue (applyOps ops s₀) = some (none, applyOps ops s₀) := by
  have hs : s.queue = [] ∧ s.shutdown = true ∧ s₀ = s := by
    match hq : s.queue with
    | x :: rest => simp [dequeue, hq] at h
    | [] =>
        match hsd : s.shutdown with
        | false => simp [dequeue, hq, hsd] at h
        | true =>
            simp [dequeue, hq, hsd] at h
            exact ⟨rfl, rfl, h.symm⟩
  obtain ⟨hq, hsd, rfl⟩ := hs
  obtain ⟨hq', hsd'⟩ := applyOps_empty_closed s₀ hq hsd ops
  simp [dequeue, hq', hsd']

/-- Witness for C10: after the first `None` on a concrete empty closed
queue, a failing enqueue, a repeated shutdown and a size query still leave
every later `dequeue` returning `None`. -/
theorem C10_dequeue_none_absorbing_witness :
    dequeue (applyOps [QOp.enq 8, QOp.sendShutdown, QOp.getSize]
        ({ queue := [], shutdown := true } : State Nat)) =
      some (none, applyOps [QOp.enq 8, QOp.sendShutdown, QOp.getSize]
        ({ queue := [], shutdown := true } : State Nat)) :=
  C10_dequeue_none_absorbing { queue := [], shutdown := true }
    { queue := [], shutdown := true } rfl [QOp.enq 8, QOp.sendShutdown, QOp.getSize]

namespace Pool

/-- A job submitted to the pool, abstracted by its only behaviour visible
to the worker loop: when called it either returns normally or panics. -/
inductive Task where
  | ok
  | panics
  deriving Repr, DecidableEq

/-- How a worker thread ends. -/
inductive WorkerEnd where
  | disconnected
  | threadPanic
  deriving Repr, DecidableEq

/-- The worker loop spawned by `Worker::new` in `src/tcp_server.rs`, run
over the messages the thread will receive in order (each `recv` under the
receiver mutex yields the next job; after the list is exhausted the
channel is disconnected and `recv` returns `Err`, breaking the loop).
The lock guard is dropped before `job()` runs.  `job()` is called with no
catch boundary around it, so a panicking job unwinds and terminates the
thread there.  Returns the jobs this worker actually started executing,
and how the thread ended. -/
def workerLoop : List Task → List Task × WorkerEnd
  | [] => ([], WorkerEnd.disconnected)
  | t :: ts =>
      match t with
      | Task.ok =>
          let r := workerLoop ts
          (Task.ok :: r.1, r.2)
      | Task.panics => ([Task.panics], WorkerEnd.threadPanic)

/-- A worker handle: its id and its join handle (present while the
thread has not been joined). -/
structure Worker where
  id : Nat
  thread : Option Unit
  deriving Repr, DecidableEq

/-- `Worker::new` stores the id and the freshly spawned thread's handle. -/
def Worker.new (id : Nat) : Worker :=
  { id := id, thread := some () }

/-- The pool: the worker handles and the channel's sender endpoint
(present until `Drop` takes it). -/
structure ThreadPool where
  workers : List Worker
  sender : Option Unit
  deriving Repr, DecidableEq

/-- `ThreadPool::new`: create the channel, share the receiver, and push
`Worker::new id` for each `id` in `0..size`.  The body performs no check
on `size` and has no panic path, so the embedding returns `ok` on every
input. -/
def ThreadPool.new (size : Nat) : Except String ThreadPool :=
  Except.ok { workers := (List.range size).map Worker.new, sender := some () }

/-- Global state of the dispatch channel and the workers' execution
histories: the pending jobs in FIFO order, and for each worker the ids of
the jobs it has executed, in order. -/
structure PoolState where
  channel : List Nat
  executed : List (List Nat)
  deriving Repr, DecidableEq

/-- One interleaving step: worker `w` acquires the receiver mutex, `recv`s
the front job of the channel, releases the lock and runs the job.  The
mutex makes the read-and-remove atomic, so the job moves from the channel
to exactly one worker's history. -/
inductive PoolStep : PoolState → PoolState → Prop where
  | claim (s : PoolState) (w j : Nat) (rest : List Nat)
      (hch : s.channel = j :: rest) (hw : w < s.executed.length) :
      PoolStep s
        { channel := rest, executed := s.executed.set w (s.executed.getD w [] ++ [j]) }

/-- All interleavings: any finite sequence of steps. -/
def PoolReach : PoolState → PoolState → Prop :=
  Relation.ReflTransGen PoolStep

/-- The state after `ThreadPool::new K` once the `N` jobs have been
submitted: all jobs pending, every worker's history empty. -/
def initPool (jobs : List Nat) (K : Nat) : PoolState :=
  { channel := jobs, executed := List.replicate K [] }

/-- How many times job id `j` is present in the system: still pending
plus executed by any worker. -/
def totalCount (j : Nat) (s : PoolState) : Nat :=
  s.channel.count j + (s.executed.map (List.count j)).sum

theorem sum_count_set (ls : List (List Nat)) (w : Nat) (hw : w < ls.length) (jc j : Nat) :
    ((ls.set w (ls.getD w [] ++ [jc])).map (List.count j)).sum =
      (ls.map (List.count j)).sum + List.count j [jc] := by
  induction ls generalizing w with
  | nil => simp at hw
  | cons hd tl ih =>
      cases w with
      | zero =>
          simp [List.count_append]
          ring
      | succ w =>
          have hw' : w < tl.length := by simpa using hw
          have hset : (hd :: tl).set (w + 1) ((hd :: tl).getD (w + 1) [] ++ [jc]) =
              hd :: tl.set w (tl.getD w [] ++ [jc]) := rfl
          rw [hset, List.map_cons, List.sum_cons, List.map_cons, List.sum_cons, ih w hw']
          ring

theorem poolStep_totalCount {s s' : PoolState} (h : PoolStep s s') (j : Nat) :
    totalCount j s' = totalCount j s := by
  cases h with
  | claim w jc rest hch hw =>
      simp only [totalCount, hch, sum_count_set s.executed w hw jc j, List.count_cons,
        List.count_nil]
      ring

theorem poolReach_totalCount {s s' : PoolState} (h : PoolReach s s') (j : Nat) :
    totalCount j s' = totalCount j s := by
  induction h with
  | refl => rfl
  | tail _ hstep ih =>
      rw [poolStep_totalCount hstep]
      exact ih

end Pool

/-- Claim C3 counterexample: the worker loop of `Worker::new` calls
`job()` with no catch boundary, so a panicking task does not leave the
worker pulling — on the message list `[panics, ok]` the thread ends by
panic (not by channel disconnection) and the later `ok` task is never
executed by it, refuting "the worker thread running it resumes its pull
loop afterwards". -/
theorem C3_panic_not_contained_counterexample :
    Pool.workerLoop [Pool.Task.panics, Pool.Task.ok] =
      ([Pool.Task.panics], Pool.WorkerEnd.threadPanic) ∧
    (Pool.workerLoop [Pool.Task.panics, Pool.Task.ok]).2 ≠ Pool.WorkerEnd.disconnected ∧
    Pool.Task.ok ∉ (Pool.workerLoop [Pool.Task.panics, Pool.Task.ok]).1 := by
  refine ⟨rfl, ?_, ?_⟩ <;> decide

/-- Claim C3 as amended: a panic inside an executed task is NOT caught at
the worker boundary — it terminates that worker thread, which does not
resume its pull loop; tasks received before the panic were executed, and
messages after the panic are not processed by that worker. -/
theorem C3_amended_panic_kills_worker (pre post : List Pool.Task)
    (hpre : ∀ t ∈ pre, t = Pool.Task.ok) :
    Pool.workerLoop (pre ++ Pool.Task.panics :: post) =
      (pre ++ [Pool.Task.panics], Pool.WorkerEnd.threadPanic) := by
  induction pre with
  | nil => rfl
  | cons t ts ih =>
      have ht : t = Pool.Task.ok := hpre t (by simp)
      subst ht
      have h := ih fun u hu => hpre u (by simp [hu])
      simp [Pool.workerLoop, h]

/-- Witness for the amended C3: with one good task before and one after
the panicking task, only the first two run and the thread dies. -/
theorem C3_amended_panic_kills_worker_witness :
    Pool.workerLoop [Pool.Task.ok, Pool.Task.panics, Pool.Task.ok] =
      ([Pool.Task.ok, Pool.Task.panics], Pool.WorkerEnd.threadPanic) :=
  C3_amended_panic_kills_worker [Pool.Task.ok] [Pool.Task.ok] (by decide)

/-- Claim C4 counterexample: `ThreadPool::new` performs no check on
`size` — called with 0 it returns normally (no panic), yielding a usable
pool whose worker vector is empty, refuting "size 0 fails loudly". -/
theorem C4_zero_size_pool_counterexample :
    Pool.ThreadPool.new 0 =
      Except.ok { workers := [], sender := some () } ∧
    (Pool.ThreadPool.new 0).isOk = true :=
  ⟨rfl, rfl⟩

/-- Claim C4 as amended: `ThreadPool::new` accepts every size including
0, never fails, and returns a pool with exactly `size` workers (ids
`0..size-1`, each with a spawned thread) — for size 0 this is a pool with
no workers, not a construction error. -/
theorem C4_amended_new_accepts_zero (size : Nat) :
    ∃ p : Pool.ThreadPool, Pool.ThreadPool.new size = Except.ok p ∧
      p.workers.length = size ∧
      p.workers.map Pool.Worker.id = List.range size ∧
      ∀ w ∈ p.workers, w.thread = some () := by
  refine ⟨_, rfl, ?_, ?_, ?_⟩
  · simp
  · simp [List.map_map, Function.comp_def, Pool.Worker.new]
  · intro w hw
    simp only [List.mem_map] at hw
    obtain ⟨i, _, rfl⟩ := hw
    rfl

/-- Claim C6: exactly-once task delivery — for any list of (distinct)
jobs submitted to a pool of `K ≥ 1` workers and ANY interleaving of
worker claim steps that drains the channel, every job ends up executed
exactly once, in exactly one worker's history. -/
theorem C6_exactly_once_delivery (jobs : List Nat) (K : Nat) (s : Pool.PoolState)
    (hK : 1 ≤ K) (hreach : Pool.PoolReach (Pool.initPool jobs K) s)
    (hdone : s.channel = []) (hnodup : jobs.Nodup) (j : Nat) (hj : j ∈ jobs) :
    (s.executed.map (List.count j)).sum = 1 := by
  have h := Pool.poolReach_totalCount hreach j
  have hinit : Pool.totalCount j (Pool.initPool jobs K) = jobs.count j := by
    simp [Pool.totalCount, Pool.initPool]
  have hs : Pool.totalCount j s = (s.executed.map (List.count j)).sum := by
    simp [Pool.totalCount, hdone]
  rw [hs, hinit] at h
  rw [h]
  exact List.count_eq_one_of_mem hnodup hj

/-- Witness for C6: two jobs, two workers, a concrete interleaving where
worker 0 takes job 10 and worker 1 takes job 20; job 10 is executed
exactly once across the pool. -/
theorem C6_exactly_once_delivery_witness :
    ((({ channel := [], executed := [[10], [20]] } : Pool.PoolState)).executed.map
      (List.count 10)).sum = 1 := by
  refine C6_exactly_once_delivery [10, 20] 2 _ (by decide) ?_ rfl (by decide) 10 (by decide)
  show Relation.ReflTransGen Pool.PoolStep _ _
  refine Relation.ReflTransGen.head (Pool.PoolStep.claim _ 0 10 [20] rfl (by decide)) ?_
  refine Relation.ReflTransGen.head (Pool.PoolStep.claim _ 1 20 [] rfl (by decide)) ?_
  exact Relation.ReflTransGen.refl
